import Mathlib

/-!
Verification development for the request-lifecycle scheduler of
`packages/valory/skills/task_execution/behaviours.py` (class
`TaskExecutionBehaviour`).  The Python dicts that the scheduler keeps
(`pending_tasks`, `req_id_to_data`, the response envelopes, the done-task
records) are embedded as Lean structures whose fields mirror the dictionary
keys that the code reads and writes; insertion-ordered Python dicts are
embedded as association lists.  Wall-clock time (`time.time()`) is a `Rat`
parameter `now` threaded through every function; the several `time.time()`
calls that a single Python function performs are identified with one instant.
Network round trips are not executed: every outbound message the scheduler
puts on its outbox is appended to the `issued` log, and the arrival of a
response is a separate function application (see `clearInflight`,
`handle_get_task`, `handle_store_response`).
-/

namespace MechScheduler

set_option maxRecDepth 40000

/-- Association-list lookup, embedding Python `d.get(k)` / `d[k]` on the
insertion-ordered dicts of the scheduler. -/
def lookupBy {α β : Type} [DecidableEq α] (k : α) : List (α × β) → Option β
  | [] => none
  | (a, b) :: rest => if a = k then some b else lookupBy k rest

/-- Association-list write, embedding Python `d[k] = v`: an existing key keeps
its position, a new key is appended (Python 3.7+ dict semantics). -/
def dictSet {α β : Type} [DecidableEq α] (k : α) (v : β) : List (α × β) → List (α × β)
  | [] => [(k, v)]
  | (a, b) :: rest => if a = k then (k, v) :: rest else (a, b) :: dictSet k v rest

/-- Association-list removal, embedding Python `d.pop(k, None)`. -/
def dictErase {α β : Type} [DecidableEq α] (k : α) : List (α × β) → List (α × β)
  | [] => []
  | (a, b) :: rest => if a = k then rest else (a, b) :: dictErase k rest

/-- In-place update of one entry, embedding a Python mutation of the dict
object stored under key `k` (a no-op when the key is absent). -/
def dictModify {α β : Type} [DecidableEq α] (k : α) (f : β → β) :
    List (α × β) → List (α × β)
  | [] => []
  | (a, b) :: rest => if a = k then (a, f b) :: rest else (a, b) :: dictModify k f rest

/-- A JSON scalar appearing as a value inside a fetched task payload. -/
inductive PVal where
  | str (s : String)
  | num (n : Int)
  | boolean (b : Bool)
deriving DecidableEq

/-- The JSON document obtained by `json.loads` on the fetched payload file:
either an object (association list of fields) or some non-object value of
which only Python truthiness matters to the scheduler. -/
inductive Payload where
  | dict (fields : List (String × PVal))
  | nondict (truthy : Bool)
deriving DecidableEq

/-- The observable state of the `Future` returned by the process-pool
executor: still running, finished with a value, or finished by raising
(in which case `Future.result()` re-raises and `_get_executing_task_result`
returns `None`). -/
inductive AsyncState : Type where
  | running
  | doneOk (deliver_msg : String) (prompt : String)
      (transaction : Option (List (String × String)))
      (counter : Option (List (String × Rat))) (keychain : Nat)
  | doneErr
deriving DecidableEq

/-- A task result value as passed to `_handle_done_task`: the 5-tuple
`(message, prompt, transaction, counter_callback, keychain)` produced by a
tool, or the synthetic 4-tuple `(msg, "", None, None)` built by
`_handle_timeout_task` (which fails the `len(task_result) == 5` test). -/
inductive TaskResultVal where
  | tuple5 (deliver_msg : String) (prompt : String)
      (transaction : Option (List (String × String)))
      (counter : Option (List (String × Rat))) (keychain : Nat)
  | tuple4 (msg : String)
deriving DecidableEq

/-- The `metadata` sub-object of a success response envelope
(behaviours.py lines 386-390). -/
structure Metadata where
  model : Option PVal
  tool : Option PVal
  params : Option (List (String × PVal))
deriving DecidableEq

/-- The JSON-serializable response envelope stored on IPFS
(behaviours.py lines 371 and 391-397); absent keys are `none`. -/
structure Response where
  requestId : Nat
  result : String
  prompt : Option String
  cost_dict : Option (List (String × Rat))
  metadata : Option Metadata
deriving DecidableEq

/-- The terminal done-task record (behaviours.py lines 373-379, 398, 616).
`transaction` is doubly optional: the outer layer is key presence (only set
for 5-tuple results), the inner layer is the Python value, which may itself
be `None`. -/
structure DoneTask where
  request_id : Nat
  mech_address : Option String
  task_executor_address : String
  tool : Option PVal
  request_id_nonce : Option String
  transaction : Option (Option (List (String × String))) := none
  task_result : Option String := none
deriving DecidableEq

/-- One Task-Registry entry (a value of `self.params.req_id_to_data`) plus
the intake fields a pending-queue item carries.  Field defaults embed the
`.get(key, default)` fallbacks the code uses for possibly-absent keys. -/
structure TaskData where
  requestId : Nat
  requestIdWithNonce : Option String := none
  contract_address : Option String := none
  sender : String := ""
  data : String := ""
  executor_idx : Nat := 0
  tool : Option PVal := none
  model : Option PVal := none
  params : Option (List (String × PVal)) := none
  async_result : Option AsyncState := none
  timeout_deadline : Option Rat := none
  is_invalid : Bool := false
  pending_finalization : Bool := false
  finalization_timeout : Rat := 0
  done_task : Option DoneTask := none
deriving DecidableEq

/-- A cached tool, i.e. one value of `self._all_tools`:
`(tool_py, callable_method, component_yaml)`, of which the scheduler only
reads `component_yaml.get("params", {})` (kept here as `yaml_params`,
`none` when the yaml has no `params` key). -/
structure ToolEntry where
  tool_py : String
  callable_method : String
  yaml_params : Option (List (String × PVal)) := none
deriving DecidableEq

/-- Which registered callback an outbound IPFS request carries
(`self.params.req_to_callback`). -/
inductive CallbackKind where
  | getTool
  | getTask
  | storeResponse
deriving DecidableEq

/-- One message the scheduler put on its outbox: an IPFS GET_FILES request,
an IPFS STORE_FILES request (filename `str(req_id)`, content the JSON
envelope), or one of the two ledger queries of `_check_for_new_reqs`. -/
inductive IssuedCall where
  | ipfsGet (ipfs_hash : String) (cb : CallbackKind) (req_id : Nat)
  | ipfsStore (req_id : Nat) (content : Response)
  | ledgerSeedQuery
  | ledgerScanQuery (from_block : Nat)
deriving DecidableEq

/-- The configuration surface of `Params` that the embedded code reads.
`mech_to_config` maps a mech address to its `use_dynamic_pricing` flag. -/
structure Params where
  timeout_limit : Nat
  max_queue_size : Nat
  task_deadline : Rat
  polling_interval : Rat
  clear_queue : Bool := false
  max_block_window : Nat := 1000
  mech_to_config : List (String × Bool) := []
deriving DecidableEq

/-- The scheduler state: the fields of `TaskExecutionBehaviour`, of its
`Params`, and of the shared state that the embedded methods touch, plus the
observation logs `issued` (outbox), `acn_sent` (side channel) and `restarts`
(executor rebuilds). -/
structure SchedState where
  params : Params
  agent_address : String
  pending_tasks : List TaskData
  req_id_to_data : List (Nat × TaskData)
  request_id_to_num_timeouts : Nat → Nat
  in_flight_req : Bool
  in_flight_req_timeout : Rat
  inflight_tool_req : Option String
  tools_to_file_hash : List (String × String)
  all_tools : List (String × ToolEntry)
  task_index : Nat
  executors : Nat
  done_tasks : List DoneTask
  issued : List IssuedCall
  acn_sent : List (String × Nat × String)
  last_polling : Option Rat
  from_block : Option Nat
  keychain : Nat
  last_executed : Option (Nat × Rat)
  restarts : List Nat

/-- behaviours.py line 73. -/
def REORG_WINDOW : Nat := 200

/-- The hard-coded fallback IPFS hash of `_execute_task`
(behaviours.py line 344). -/
def fallback_ipfs_hash : String :=
  "bafybeigatmm7mwx5bx3bbsiouaasbpgnd7a3rrxhzw7eia3w5yj6cvvfxq"

/-- Embeds `send_message` (behaviours.py lines 353-361): marks a request in
flight with a 30-second timeout, puts the message on the outbox and registers
its callback (the callback and request id travel inside `IssuedCall` here). -/
def send_message (s : SchedState) (now : Rat) (msg : IssuedCall) : SchedState :=
  { s with in_flight_req := true
           in_flight_req_timeout := now + 30
           issued := s.issued ++ [msg] }

/-- First tool of `_tools_to_file_hash` (configuration order) that has no
entry in `_all_tools` yet: the `for`-loop body of `_download_tools`. -/
def firstMissingTool (cached : List (String × ToolEntry)) :
    List (String × String) → Option (String × String)
  | [] => none
  | (t, h) :: rest =>
    if (lookupBy t cached).isSome then firstMissingTool cached rest
    else some (t, h)

/-- Embeds `_download_tools` (behaviours.py lines 199-215): a no-op when a
tool request is already in flight or every tool is cached; otherwise fetches
exactly one missing tool (dummy request id 0). -/
def download_tools (s : SchedState) (now : Rat) : SchedState :=
  if s.inflight_tool_req.isSome then s
  else if s.tools_to_file_hash.length = s.all_tools.length then s
  else
    match firstMissingTool s.all_tools s.tools_to_file_hash with
    | none => s
    | some (tool, file_hash) =>
      send_message { s with inflight_tool_req := some tool } now
        (.ipfsGet file_hash .getTool 0)

/-- Embeds `_populate_from_block` (behaviours.py lines 228-240): issues the
latest-block seed query with a 10-second in-flight timeout. -/
def populate_from_block (s : SchedState) (now : Rat) : SchedState :=
  { s with in_flight_req := true
           in_flight_req_timeout := now + 10
           issued := s.issued ++ [.ledgerSeedQuery] }

/-- Embeds `_should_poll` (behaviours.py lines 153-157). -/
def should_poll (s : SchedState) (now : Rat) : Bool :=
  match s.last_polling with
  | none => true
  | some t => decide (t + s.params.polling_interval ≤ now)

/-- Embeds `_check_for_new_reqs` (behaviours.py lines 242-276): skips while a
request is in flight and unexpired or polling is not due; otherwise issues the
seed query (no `from_block` yet) or the undelivered-requests scan from
`from_block - REORG_WINDOW` with a 900-second in-flight timeout. -/
def check_for_new_reqs (s : SchedState) (now : Rat) : SchedState :=
  if (s.in_flight_req = true ∧ now < s.in_flight_req_timeout) ∨ should_poll s now = false
  then s
  else
    match s.from_block with
    | none => populate_from_block s now
    | some fb =>
      { s with in_flight_req := true
               in_flight_req_timeout := now + 900
               issued := s.issued ++ [.ledgerScanQuery (fb - REORG_WINDOW)]
               last_polling := some now }

/-- Whether a `Future` reports `done()`. -/
def futureDone : Option AsyncState → Bool
  | some .running => false
  | some _ => true
  | none => false

/-- Embeds `_is_executing_task_ready` (behaviours.py lines 159-169). -/
def is_executing_task_ready (s : SchedState) (req_id : Nat) : Bool :=
  match lookupBy req_id s.req_id_to_data with
  | none => false
  | some td => futureDone td.async_result

/-- Embeds `_has_executing_task_timed_out` (behaviours.py lines 171-179). -/
def has_executing_task_timed_out (s : SchedState) (req_id : Nat) (now : Rat) : Bool :=
  match lookupBy req_id s.req_id_to_data with
  | none => false
  | some td =>
    match td.timeout_deadline with
    | none => false
    | some d => decide (d ≤ now)

/-- Embeds `_is_task_invalid` (behaviours.py lines 278-283). -/
def is_task_invalid (s : SchedState) (req_id : Nat) : Bool :=
  match lookupBy req_id s.req_id_to_data with
  | none => false
  | some td => td.is_invalid

/-- Embeds `_get_executing_task_result` (behaviours.py lines 181-197): `none`
for a missing entry, an invalid task, or a future that raised; otherwise the
5-tuple the future produced.  (The blocking `result()` on a running future is
unreachable from the call site, which first checks `done()`.) -/
def get_executing_task_result (s : SchedState) (req_id : Nat) : Option TaskResultVal :=
  match lookupBy req_id s.req_id_to_data with
  | none => none
  | some td =>
    if td.is_invalid then none
    else
      match td.async_result with
      | some (.doneOk m p tx c k) => some (.tuple5 m p tx c k)
      | _ => none

/-- The default failure envelope `{"requestId": req_id, "result": "Invalid
response"}` (behaviours.py line 371). -/
def invalidResponse (req_id : Nat) : Response :=
  { requestId := req_id, result := "Invalid response"
    prompt := none, cost_dict := none, metadata := none }

/-- Embeds `_handle_done_task` (behaviours.py lines 363-408): builds the
response envelope and the done-task record from the registry entry, adds
`result`, `prompt`, `cost_dict`, `metadata` and the done-task `transaction`
key only when the task result is a 5-tuple (otherwise the envelope stays the
default failure envelope), updates the keychain from the 5-tuple, and issues
the STORE_FILES request.  (Python indexes `req_id_to_data[req_id]` directly
and would raise on a missing id; every call site guarantees presence, and the
embedding returns the state unchanged in that dead branch.) -/
def handle_done_task (s : SchedState) (now : Rat) (req_id : Nat)
    (task_result : Option TaskResultVal) : SchedState :=
  match lookupBy req_id s.req_id_to_data with
  | none => s
  | some et =>
    let done0 : DoneTask :=
      { request_id := req_id
        mech_address := et.contract_address
        task_executor_address := s.agent_address
        tool := et.tool
        request_id_nonce := et.requestIdWithNonce }
    match task_result with
    | some (.tuple5 msg prompt tx counter keys) =>
      let cost_dict := counter.getD []
      let metadata : Metadata := { model := et.model, tool := et.tool, params := et.params }
      let response : Response :=
        { requestId := req_id, result := msg, prompt := some prompt
          cost_dict := some cost_dict, metadata := some metadata }
      let et' := { et with done_task := some { done0 with transaction := some tx } }
      send_message
        { s with req_id_to_data := dictSet req_id et' s.req_id_to_data
                 keychain := keys }
        now (.ipfsStore req_id response)
    | _ =>
      let et' := { et with done_task := some done0 }
      send_message
        { s with req_id_to_data := dictSet req_id et' s.req_id_to_data }
        now (.ipfsStore req_id (invalidResponse req_id))

/-- Embeds `_restart_executor` (behaviours.py lines 410-414): the slot's
process pool is torn down and recreated; observable here as the `restarts`
log. -/
def restart_executor (s : SchedState) (idx : Nat) : SchedState :=
  { s with restarts := s.restarts ++ [idx] }

/-- Embeds `_handle_timeout_task` (behaviours.py lines 416-454): increments
the per-request timeout counter, cancels the future, restarts the slot, then
either requeues a copy of the task with `pending_finalization` cleared and
drops the registry entry (limit not reached), or finalizes with the synthetic
4-tuple `("Task timed out {limit} times during execution. ", "", None,
None)`. -/
def handle_timeout_task (s : SchedState) (now : Rat) (req_id : Nat) : SchedState :=
  match lookupBy req_id s.req_id_to_data with
  | none => s
  | some et =>
    let req_id := et.requestId
    let s :=
      { s with request_id_to_num_timeouts :=
          fun r => if r = req_id then s.request_id_to_num_timeouts req_id + 1
                   else s.request_id_to_num_timeouts r }
    let s := restart_executor s et.executor_idx
    if ¬ (s.params.timeout_limit ≤ s.request_id_to_num_timeouts req_id) then
      { s with
        pending_tasks := s.pending_tasks ++ [{ et with pending_finalization := false }]
        req_id_to_data := dictErase req_id s.req_id_to_data }
    else
      let msg :=
        "Task timed out " ++ toString s.params.timeout_limit ++
          " times during execution. "
      handle_done_task s now req_id (some (.tuple4 msg))

/-- Embeds the `task_deadline` property (behaviours.py lines 496-505).  Note
that the property returns `time.time() + duration`, an absolute instant, not
a duration; when the queue exceeds `max_queue_size` the divisor is
`min(max_queue_size / queue_size, 5)`. -/
def task_deadline (p : Params) (queue_size : Nat) (now : Rat) : Rat :=
  if p.max_queue_size < queue_size then
    now + p.task_deadline / min ((p.max_queue_size : Rat) / (queue_size : Rat)) 5
  else
    now + p.task_deadline

/-- Python truthiness of a payload (an empty dict is falsy). -/
def payloadTruthy : Payload → Bool
  | .dict f => !f.isEmpty
  | .nondict t => t

def payloadIsDict : Payload → Bool
  | .dict _ => true
  | .nondict _ => false

def payloadHasKey (k : String) : Payload → Bool
  | .dict f => (lookupBy k f).isSome
  | .nondict _ => false

def payloadGet (k : String) : Payload → Option PVal
  | .dict f => lookupBy k f
  | .nondict _ => none

/-- Embeds the `is_data_valid` expression of `_handle_get_task`
(behaviours.py lines 465-471): a truthy dict holding both `prompt` and
`tool`, outside clear-queue mode. -/
def is_data_valid (p : Params) (task_data : Payload) : Bool :=
  payloadTruthy task_data && payloadIsDict task_data &&
    payloadHasKey "prompt" task_data && payloadHasKey "tool" task_data &&
    !p.clear_queue

/-- Embeds `task_data["tool"] in self._tools_to_file_hash` (line 472); a
non-string tool value is not a key of the mapping. -/
def tool_known (s : SchedState) (v : PVal) : Bool :=
  match v with
  | .str t => (lookupBy t s.tools_to_file_hash).isSome
  | _ => false

def tool_of_known (s : SchedState) (task_data : Payload) : Bool :=
  match payloadGet "tool" task_data with
  | some v => tool_known s v
  | none => false

/-- Embeds `_prepare_task` (behaviours.py lines 507-530): resolves the cached
tool, defaults the model from the tool's yaml `params`, submits the task to
the entry's slot (the healthy-submit path: the returned future starts
`running`; the broken-pool path of `_submit_task` is embedded separately as
`submit_task`), and records `timeout_deadline = time.time() +
self.task_deadline` — where the `task_deadline` property itself already added
`time.time()`. -/
def prepare_task (s : SchedState) (now : Rat) (req_id : Nat)
    (task_data : Payload) : SchedState :=
  match payloadGet "tool" task_data with
  | none => s
  | some toolv =>
    match (match toolv with
           | .str t => lookupBy t s.all_tools
           | _ => none) with
    | none => s
    | some te =>
      let tool_params := te.yaml_params.getD []
      let modelv :=
        (payloadGet "model" task_data).orElse
          (fun _ => lookupBy "default_model" tool_params)
      match lookupBy req_id s.req_id_to_data with
      | none => s
      | some et =>
        let et' :=
          { et with
            timeout_deadline :=
              some (now + task_deadline s.params s.pending_tasks.length now)
            tool := some toolv
            model := modelv
            params := some tool_params
            async_result := some .running }
        { s with req_id_to_data := dictSet req_id et' s.req_id_to_data }

/-- Embeds `_handle_get_task` (behaviours.py lines 456-481): on payload
arrival, a valid payload naming a known tool is prepared and submitted;
a valid payload naming an unknown tool records the tool and marks the task
invalid; anything else marks the task invalid. -/
def handle_get_task (s : SchedState) (now : Rat) (req_id : Nat)
    (task_data : Payload) : SchedState :=
  match lookupBy req_id s.req_id_to_data with
  | none => s
  | some _ =>
    if is_data_valid s.params task_data = true ∧ tool_of_known s task_data = true then
      prepare_task s now req_id task_data
    else if is_data_valid s.params task_data = true then
      let reg :=
        dictModify req_id
          (fun td => { td with tool := payloadGet "tool" task_data, is_invalid := true })
          s.req_id_to_data
      { s with req_id_to_data := reg }
    else
      let reg :=
        dictModify req_id (fun td => { td with is_invalid := true }) s.req_id_to_data
      { s with req_id_to_data := reg }

/-- The Python process pool of one worker slot: healthy or broken. -/
inductive PoolState where
  | ok
  | broken
deriving DecidableEq

/-- The two exceptions relevant to `_submit_task`. -/
inductive PyErr where
  | brokenProcessPool
  | attributeError
deriving DecidableEq

/-- Models `ProcessPoolExecutor.submit` on one slot: raises
`BrokenProcessPool` on a broken pool, otherwise returns a handle (here
`Unit`). -/
def poolSubmit : PoolState → Except PyErr Unit
  | .ok => .ok ()
  | .broken => .error .brokenProcessPool

/-- behaviours.py line 494 evaluates `self._executor.submit(executor_idx, fn,
*args, **kwargs)`: `self._executor` is the `Dict[int, ProcessPoolExecutor]`,
and attribute access of `submit` on a Python dict raises `AttributeError`
before anything else runs. -/
def executorDictSubmit (_pools : List PoolState) : Except PyErr Unit :=
  .error .attributeError

/-- Embeds `_submit_task` (behaviours.py lines 483-494) over the slot pools:
the first submit attempt; on `BrokenProcessPool` the slot is restarted
(`_restart_executor`, the pool becomes fresh) and the retry line runs — which
is `self._executor.submit(...)` on the executor dict.  Returns the outcome
(`Except`: an uncaught exception propagates to the caller) and the pools. -/
def submit_task (pools : List PoolState) (idx : Nat) :
    Except PyErr Unit × List PoolState :=
  match poolSubmit (pools.getD idx .broken) with
  | .ok u => (.ok u, pools)
  | .error .brokenProcessPool =>
    let pools' := pools.set idx .ok
    (executorDictSubmit pools', pools')
  | .error .attributeError => (.error .attributeError, pools)

/-- The first pass of `_execute_task` over `req_id_to_data.values()`
(behaviours.py lines 299-306): find the first task that is pending
finalization and whose `finalization_timeout` has passed, mark it invalid in
place and stop (`some updatedRegistry`); `none` when no such task exists. -/
def markStaleFinalization (now : Rat) :
    List (Nat × TaskData) → Option (List (Nat × TaskData))
  | [] => none
  | (k, td) :: rest =>
    if td.pending_finalization = true ∧ td.finalization_timeout < now then
      some ((k, { td with is_invalid := true }) :: rest)
    else
      (markStaleFinalization now rest).map ((k, td) :: ·)

/-- The second pass of `_execute_task` (behaviours.py lines 309-322), in
registry iteration order: the first ready-or-invalid task (`(true, req_id)`)
or, failing that at each position, the first timed-out task
(`(false, req_id)`). -/
def findAdvanceIn (s : SchedState) (now : Rat) :
    List (Nat × TaskData) → Option (Bool × Nat)
  | [] => none
  | (k, _) :: rest =>
    if is_executing_task_ready s k || is_task_invalid s k then some (true, k)
    else if has_executing_task_timed_out s k now then some (false, k)
    else findAdvanceIn s now rest

/-- The stale-finalization pass of `_execute_task` (behaviours.py lines
295-306): computes whether any task is pending finalization, force-marks the
first one whose `finalization_timeout` elapsed as invalid, and — having done
so — clears the local `pending_finalization` flag. -/
def execute_phase_stale (s : SchedState) (now : Rat) : SchedState × Bool :=
  let pf0 := s.req_id_to_data.any fun kd => kd.2.pending_finalization
  match markStaleFinalization now s.req_id_to_data with
  | some reg => ({ s with req_id_to_data := reg }, false)
  | none => (s, pf0)

/-- The advance pass of `_execute_task` (behaviours.py lines 309-322):
advance at most one task, either finalizing it (setting
`pending_finalization` and a 30-second `finalization_timeout` on its entry
before `_handle_done_task` issues the store call) or running the timeout
handler (after which the mutation of the loop variable only reaches the
registry if the entry was not popped by a requeue). -/
def execute_phase_advance (s : SchedState) (now : Rat) : SchedState :=
  match findAdvanceIn s now s.req_id_to_data with
  | some (true, k) =>
    let task_result := get_executing_task_result s k
    let reg :=
      dictModify k
        (fun td => { td with pending_finalization := true
                             finalization_timeout := now + 30 })
        s.req_id_to_data
    handle_done_task { s with req_id_to_data := reg } now k task_result
  | some (false, k) =>
    let s := handle_timeout_task s now k
    let reg :=
      dictModify k
        (fun td => { td with pending_finalization := true
                             finalization_timeout := now + 30 })
        s.req_id_to_data
    { s with req_id_to_data := reg }
  | none => s

/-- The finalization part of `_execute_task` (behaviours.py lines 295-322):
the stale pass, then — unless a task is still pending finalization — the
advance pass. -/
def execute_phase_finalize (s : SchedState) (now : Rat) : SchedState :=
  let sp := execute_phase_stale s now
  if sp.2 then sp.1 else execute_phase_advance sp.1 now

/-- The dequeue part of `_execute_task` (behaviours.py lines 324-351):
nothing to do on an empty queue or when the registry already holds as many
tasks as there are slots; otherwise assign the round-robin slot index
`task_index % len(executor)`, pop the queue head into the registry, parse its
raw `data` into an IPFS hash — any exception falls back to the hard-coded
hash — and issue the payload fetch. -/
def execute_phase_dequeue (parse : String → Option String) (s : SchedState)
    (now : Rat) : SchedState :=
  if s.pending_tasks.isEmpty then s
  else if s.req_id_to_data.length ≥ s.executors then s
  else
    let executor_idx := s.task_index % s.executors
    let s := { s with task_index := s.task_index + 1 }
    match s.pending_tasks with
    | [] => s
    | td :: rest =>
      let td := { td with executor_idx := executor_idx }
      let s :=
        { s with pending_tasks := rest
                 req_id_to_data := dictSet td.requestId td s.req_id_to_data }
      let ipfs_hash := (parse td.data).getD fallback_ipfs_hash
      send_message s now (.ipfsGet ipfs_hash .getTask td.requestId)

/-- Embeds `_execute_task` (behaviours.py lines 285-351): a no-op while a
request is in flight and unexpired; otherwise the finalization pass followed
— with no early return in between — by the dequeue pass. -/
def execute_task (parse : String → Option String) (s : SchedState)
    (now : Rat) : SchedState :=
  if s.in_flight_req = true ∧ now < s.in_flight_req_timeout then s
  else execute_phase_dequeue parse (execute_phase_finalize s now) now

/-- Embeds `act` (behaviours.py lines 107-111): one scheduler tick. -/
def act (parse : String → Option String) (s : SchedState) (now : Rat) :
    SchedState :=
  check_for_new_reqs (execute_task parse (download_tools s now) now) now

/-- Lowercase hex digit. -/
def hexDigitChar (n : Nat) : Char :=
  if n < 10 then Char.ofNat (48 + n) else Char.ofNat (87 + n)

/-- Two-digit lowercase hex of one byte, as Python `bytes.hex()` renders
each byte. -/
def byteToHex (b : Nat) : String :=
  String.mk [hexDigitChar (b / 16 % 16), hexDigitChar (b % 16)]

/-- Python `bytes.hex()`: lowercase hex of a byte string. -/
def hexOfBytes (bs : List Nat) : String :=
  String.join (bs.map byteToHex)

/-- Big-endian base-256 digits of `n`, `width` bytes, most significant first
(the least significant byte is last). -/
def beBytes : Nat → Nat → List Nat
  | 0, _ => []
  | width + 1, n => beBytes width (n / 256) ++ [n % 256]

/-- Reads a big-endian byte string back as a natural number. -/
def natOfBeBytes (bs : List Nat) : Nat :=
  bs.foldl (fun a b => a * 256 + b) 0

/-- Right-pad a byte string with zeros to a multiple of 32 bytes. -/
def padTo32 (bs : List Nat) : List Nat :=
  bs ++ List.replicate ((32 - bs.length % 32) % 32) 0

/-- Modelled from the spec: `eth_abi.encode(["uint256", "bytes"], [cost,
b])` (third-party library, behaviours.py lines 612-614), i.e. the Solidity
ABI encoding of the pair: a 32-byte big-endian `uint256` head, the 32-byte
offset `0x40` of the dynamic tail, then the tail — 32-byte big-endian length
followed by the payload zero-padded to a 32-byte boundary. -/
def abi_encode_uint256_bytes (cost : Nat) (bs : List Nat) : List Nat :=
  beBytes 32 cost ++ beBytes 32 64 ++ beBytes 32 bs.length ++ padTo32 bs

/-- Embeds `_handle_store_response` (behaviours.py lines 582-621).  The
external helpers that are not part of this repository's scheduler file are
parameters: `to_v1` (CID conversion, `aea.helpers.cid`), `multihash_bytes`
(the byte content of `to_multihash(ipfs_hash)`, whose string form is its
lowercase hex), and `cost_of` (`get_cost_for_done_task`).  On the store
response: deliver the hash over the side channel, record the health-check
marker, compute `task_result` — the multihash hex, replaced by the hex of
`encode(["uint256","bytes"], [cost, bytes.fromhex(task_result)])` when the
owning mech enables dynamic pricing — append the done task and drop the
registry entry.  (Python would raise on a missing `done_task` key or mech
config; call sites establish both, and those dead branches return the state
unchanged.) -/
def handle_store_response (to_v1 : String → String)
    (multihash_bytes : String → List Nat) (cost_of : DoneTask → Nat)
    (s : SchedState) (now : Rat) (req_id : Nat) (stored_hash : String) :
    SchedState :=
  match lookupBy req_id s.req_id_to_data with
  | none => s
  | some et =>
    let req_id := et.requestId
    let sender := et.sender
    let ipfs_hash := to_v1 stored_hash
    let s :=
      { s with acn_sent := s.acn_sent ++ [(sender, req_id, ipfs_hash)]
               last_executed := some (req_id, now) }
    match et.done_task with
    | none => s
    | some done_task =>
      let task_result := hexOfBytes (multihash_bytes ipfs_hash)
      let cost := cost_of done_task
      match done_task.mech_address with
      | none => s
      | some addr =>
        match lookupBy addr s.params.mech_to_config with
        | none => s
        | some use_dynamic_pricing =>
          let task_result :=
            if use_dynamic_pricing then
              hexOfBytes (abi_encode_uint256_bytes cost (multihash_bytes ipfs_hash))
            else task_result
          let done := { done_task with task_result := some task_result }
          { s with done_tasks := s.done_tasks ++ [done]
                   req_id_to_data := dictErase req_id s.req_id_to_data }

/-- Modelled from the spec: the skill's message handler (handlers.py, not
under src/) clears the in-flight flag when the response to an outstanding
request arrives (§4.1: "a query is considered in-flight until its response
arrives or a timeout elapses") before dispatching the registered callback. -/
def clearInflight (s : SchedState) : SchedState :=
  { s with in_flight_req := false }

/-- Models the environment: the worker slot finishes the submitted task and
its `Future` becomes done with the tool's 5-tuple. -/
def completeFuture (s : SchedState) (req_id : Nat) (r : AsyncState) : SchedState :=
  let reg := dictModify req_id (fun td => { td with async_result := some r }) s.req_id_to_data
  { s with req_id_to_data := reg }

/-- Modelled from the spec: intake (the ledger response handler, not under
src/) appends a newly observed undelivered request to the shared pending
queue. -/
def enqueueRequest (s : SchedState) (td : TaskData) : SchedState :=
  { s with pending_tasks := s.pending_tasks ++ [td] }

/-- The in-flight bookkeeping `send_message` leaves behind: the flag is set
and the timeout is thirty seconds from now. -/
def calmAt (s : SchedState) (now : Rat) : Prop :=
  s.in_flight_req = true ∧ s.in_flight_req_timeout = now + 30

/-- A step that issued nothing and left the in-flight bookkeeping alone. -/
def quietStep (s s' : SchedState) : Prop :=
  s'.issued = s.issued ∧ s'.in_flight_req = s.in_flight_req ∧
    s'.in_flight_req_timeout = s.in_flight_req_timeout

/-- Configuration used by the concrete scenarios: 2 worker slots worth of
tasks, `timeout_limit = 3`, `max_queue_size = 5`, base `task_deadline = 100`
seconds, polling every 10 seconds, one mech `"m"` with dynamic pricing
off. -/
def pFix : Params :=
  { timeout_limit := 3, max_queue_size := 5, task_deadline := 100
    polling_interval := 10, mech_to_config := [("m", false)] }

/-- The one cached tool `"t"` of the concrete scenarios. -/
def teFix : ToolEntry := { tool_py := "code", callable_method := "run" }

/-- A payload naming the known tool `"t"`. -/
def payloadFix : Payload :=
  .dict [("prompt", PVal.str "p"), ("tool", PVal.str "t")]

/-- A scheduler state template for the concrete scenarios: idle, no backlog,
2 slots, the tool `"t"` cached, polling not due at instant 0. -/
def sIdle : SchedState :=
  { params := pFix
    agent_address := "agent"
    pending_tasks := []
    req_id_to_data := []
    request_id_to_num_timeouts := fun _ => 0
    in_flight_req := false
    in_flight_req_timeout := 0
    inflight_tool_req := none
    tools_to_file_hash := [("t", "h")]
    all_tools := [("t", teFix)]
    task_index := 0
    executors := 2
    done_tasks := []
    issued := []
    acn_sent := []
    last_polling := some 0
    from_block := some 1000
    keychain := 0
    last_executed := none
    restarts := [] }

/-- A parse function under which every raw `data` field fails to yield an
IPFS hash (`get_ipfs_file_hash` raises). -/
def noParse : String → Option String := fun _ => none

/-- C1 scenario: request 1 is in the registry with its future done, request 2
sits in the pending queue, no request is in flight. -/
def tdReady1 : TaskData :=
  { requestId := 1, requestIdWithNonce := some "n1", contract_address := some "m"
    sender := "s1", data := "d1", executor_idx := 0, tool := some (.str "t")
    params := some [], async_result := some (.doneOk "ok" "p" none none 0)
    timeout_deadline := some 100 }

def tdQueued2 : TaskData := { requestId := 2, sender := "s2", data := "d2" }

def sC1 : SchedState :=
  { sIdle with pending_tasks := [tdQueued2], req_id_to_data := [(1, tdReady1)]
               task_index := 1 }

/-- The envelope the C1 scenario stores for request 1. -/
def respC1 : Response :=
  { requestId := 1, result := "ok", prompt := some "p", cost_dict := some []
    metadata := some { model := none, tool := some (.str "t"), params := some [] } }

/-- C4 scenario: request 9 is registered awaiting its payload, which then
arrives at instant 1000. -/
def sC4 : SchedState := { sIdle with req_id_to_data := [(9, { requestId := 9 })] }

/-- C2 scenario: request 7 is executing and has already timed out 3 times
(= `timeout_limit`). -/
def etC2 : TaskData :=
  { requestId := 7, contract_address := some "m", sender := "s7"
    executor_idx := 1, tool := some (.str "t") }

def sC2 : SchedState :=
  { sIdle with req_id_to_data := [(7, etC2)]
               request_id_to_num_timeouts := fun _ => 3 }

/-- C6 scenario: request 7 is registered awaiting its payload; the payload
that arrives has a `prompt` but no `tool` key. -/
def etC6 : TaskData :=
  { requestId := 7, contract_address := some "m", sender := "s7" }

def sC6 : SchedState := { sIdle with req_id_to_data := [(7, etC6)] }

def payloadNoTool : Payload := .dict [("prompt", PVal.str "x")]

/-- C8 scenario: request 7 is executing tool `"t"` with model `"gpt"`. -/
def etC8 : TaskData :=
  { requestId := 7, requestIdWithNonce := some "rn", contract_address := some "m"
    sender := "s7", tool := some (.str "t"), model := some (.str "gpt")
    params := some [] }

def sC8 : SchedState := { sIdle with req_id_to_data := [(7, etC8)] }

/-- C9 witness scenario: request 7 pending finalization with its done-task
record built, owned by mech `"mdyn"` with dynamic pricing on. -/
def dtC9 : DoneTask :=
  { request_id := 7, mech_address := some "mdyn", task_executor_address := "agent"
    tool := some (.str "t"), request_id_nonce := some "rn" }

def etC9 : TaskData :=
  { requestId := 7, sender := "s7", done_task := some dtC9 }

def sC9 : SchedState :=
  { sIdle with
      params := { pFix with mech_to_config := [("mdyn", true)] }
      req_id_to_data := [(7, etC9)] }

/-- C7 scenario start: request 1 pending, nothing running. -/
def tdA : TaskData :=
  { requestId := 1, contract_address := some "m", sender := "sa", data := "da" }

def tdB : TaskData :=
  { requestId := 2, contract_address := some "m", sender := "sb", data := "db" }

def tdC : TaskData :=
  { requestId := 3, contract_address := some "m", sender := "sc", data := "dc" }

def sC7 : SchedState := { sIdle with pending_tasks := [tdA] }

/-- C7 scenario trace: request 1 is dequeued to slot 0 and starts executing;
request 2 arrives, is dequeued to slot 1 and starts executing; request 2
finishes first, is finalized and its store response removes it from the
registry; request 3 arrives and is dequeued — to slot `task_index % 2 = 0`,
while request 1 is still bound to slot 0. -/
def sC7trace : SchedState :=
  let s1 := act noParse sC7 0
  let s2 := handle_get_task (clearInflight s1) 0 1 payloadFix
  let s3 := enqueueRequest s2 tdB
  let s4 := act noParse s3 0
  let s5 := handle_get_task (clearInflight s4) 0 2 payloadFix
  let s6 := completeFuture s5 2 (.doneOk "ok" "p" none none 0)
  let s7 := act noParse s6 0
  let s8 := handle_store_response (fun h => h) (fun _ => [0]) (fun _ => 0)
    (clearInflight s7) 0 2 "Qm"
  let s9 := enqueueRequest s8 tdC
  act noParse s9 0

/-- C10 witness scenario: request 4 pending with unparsable raw data. -/
def tdD : TaskData := { requestId := 4, sender := "sd", data := "not-a-hash" }

def sC10 : SchedState := { sIdle with pending_tasks := [tdD] }

/-- C3: the configuration of the deadline-compression claim. -/
def pC3 : Params :=
  { timeout_limit := 3, max_queue_size := 5, task_deadline := 100
    polling_interval := 10 }

/-- C5 (code_bug): evaluating `_submit_task` on a slot whose process pool is
broken: the first submit raises `BrokenProcessPool`, the slot is restarted,
and the retry — `self._executor.submit(...)` on the executor *dict* — raises
`AttributeError`, which is not caught and propagates to the caller instead
of yielding a task handle.  A healthy slot, by contrast, returns a handle. -/
theorem c5_retry_raises_eval :
    submit_task [PoolState.broken] 0 = (Except.error PyErr.attributeError, [PoolState.ok]) ∧
    submit_task [PoolState.ok] 0 = (Except.ok (), [PoolState.ok]) :=
  ⟨rfl, rfl⟩

/-- C4 (code_bug): evaluating `_prepare_task` for request 9 at `now = 1000`
with base deadline 100 and an empty queue records
`timeout_deadline = 2100 = now + (now + 100)` — because the `task_deadline`
property already returns `time.time() + duration` and `_prepare_task` adds
`time.time()` again — whereas `now + taskDeadline` is `1100`. -/
theorem c4_double_now_eval :
    ((lookupBy 9 (prepare_task sC4 1000 9 payloadFix).req_id_to_data).bind
        fun td => td.timeout_deadline) = some 2100 ∧
    (2100 : Rat) ≠ 1000 + 100 := by
  with_unfolding_all decide

/-- C8: the success round trip.  With the worker 5-tuple
`("ok", "prompt-x", {"to": "0xabc"}, None, keys)` for request 7,
`_handle_done_task` stores an envelope with `result = "ok"` and
`prompt = "prompt-x"` (and `cost_dict = {}` since the counter callback is
`None`), and the done-task record carries `transaction = {"to": "0xabc"}`. -/
theorem c8_roundtrip :
    (handle_done_task sC8 0 7
        (some (.tuple5 "ok" "prompt-x" (some [("to", "0xabc")]) none 9))).issued =
      [IssuedCall.ipfsStore 7
        { requestId := 7, result := "ok", prompt := some "prompt-x"
          cost_dict := some []
          metadata := some { model := some (.str "gpt"), tool := some (.str "t")
                             params := some [] } }] ∧
    ((lookupBy 7 (handle_done_task sC8 0 7
          (some (.tuple5 "ok" "prompt-x" (some [("to", "0xabc")]) none 9))).req_id_to_data).bind
        fun td => td.done_task).map (fun dt => dt.transaction) =
      some (some (some [("to", "0xabc")])) := by
  decide

/-- C1 (counterexample): one scheduler tick from a reachable, idle state —
request 1 finished in its slot, request 2 waiting in the queue, no call in
flight — issues the finalization store call for request 1 and then, in the
same tick (`_execute_task` does not return after `_handle_done_task`),
dequeues request 2 and issues its payload fetch while that store call is in
flight: two content-store calls outstanding at once, which the claim says
never happens. -/
theorem c1_claim_false :
    (act noParse sC1 0).issued =
      [IssuedCall.ipfsStore 1 respC1,
       IssuedCall.ipfsGet fallback_ipfs_hash .getTask 2] ∧
    (execute_phase_finalize sC1 0).in_flight_req = true ∧
    sC1.issued = [] := by
  with_unfolding_all decide

/-- C7 (code_bug): requests 1 and 2 are dequeued to slots 0 and 1; request 2
finishes first and its store response removes it from the registry; request 3
is then dequeued and — because the slot index is `task_index % len(executor)`
regardless of which slots are occupied — is bound to slot 0, which request 1
still occupies: two registry tasks bound to one slot with the other slot
free. -/
theorem c7_slot_collision_eval :
    (lookupBy 1 sC7trace.req_id_to_data).map (fun td => td.executor_idx) = some 0 ∧
    (lookupBy 3 sC7trace.req_id_to_data).map (fun td => td.executor_idx) = some 0 ∧
    sC7trace.req_id_to_data.length = 2 ∧ sC7trace.executors = 2 := by
  with_unfolding_all decide

/-- C3 (counterexample): with `max_queue_size = 5` and base deadline 100, a
pending queue of 20 does not produce a 20-second task deadline: the code
computes `100 / min(5/20, 5) = 100 / (1/4) = 400`. -/
theorem c3_claim_false : ¬ (task_deadline pC3 20 0 = 20) := by
  with_unfolding_all decide

/-- Writing a key with `dictSet` makes it found with the written value. -/
theorem lookupBy_dictSet_self {α β : Type} [DecidableEq α] (k : α) (v : β) :
    ∀ l : List (α × β), lookupBy k (dictSet k v l) = some v
  | [] => by simp [dictSet, lookupBy]
  | (a, b) :: rest => by
    by_cases h : a = k
    · simp [dictSet, lookupBy, h]
    · simp [dictSet, lookupBy, h, lookupBy_dictSet_self k v rest]

/-- Updating a key with `dictModify` maps its looked-up value. -/
theorem lookupBy_dictModify_self {α β : Type} [DecidableEq α] (k : α) (f : β → β) :
    ∀ l : List (α × β), lookupBy k (dictModify k f l) = (lookupBy k l).map f
  | [] => by simp [dictModify, lookupBy]
  | (a, b) :: rest => by
    by_cases h : a = k
    · simp [dictModify, lookupBy, h]
    · simp [dictModify, lookupBy, h, lookupBy_dictModify_self k f rest]

/-- C2: for a request whose timeout counter has already reached
`timeout_limit`, `_handle_timeout_task` does not append the task to the
pending queue, keeps its registry entry (no requeue), and finalizes it at
once via `_handle_done_task` with the synthetic timed-out 4-tuple — whose
stored envelope is the default failure envelope, since the synthetic result
is not a 5-tuple. -/
theorem c2_timeout_limit_finalizes (s : SchedState) (now : Rat) (req : Nat)
    (et : TaskData) (h1 : lookupBy req s.req_id_to_data = some et)
    (h2 : et.requestId = req)
    (h3 : s.params.timeout_limit ≤ s.request_id_to_num_timeouts req) :
    (handle_timeout_task s now req).pending_tasks = s.pending_tasks ∧
    (handle_timeout_task s now req).issued =
      s.issued ++ [.ipfsStore req (invalidResponse req)] ∧
    (lookupBy req (handle_timeout_task s now req).req_id_to_data).isSome = true := by
  simp only [handle_timeout_task, h1, h2, restart_executor, ite_true]
  rw [if_neg (not_not_intro (Nat.le_succ_of_le h3))]
  simp [handle_done_task, h1, send_message, lookupBy_dictSet_self]

/-- C2 (witness): request 7 with 3 recorded timeouts against
`timeout_limit = 3`. -/
theorem c2_timeout_limit_finalizes_witness :
    (lookupBy 7 sC2.req_id_to_data = some etC2 ∧ etC2.requestId = 7 ∧
      sC2.params.timeout_limit ≤ sC2.request_id_to_num_timeouts 7) ∧
    ((handle_timeout_task sC2 0 7).pending_tasks = sC2.pending_tasks ∧
      (handle_timeout_task sC2 0 7).issued =
        sC2.issued ++ [.ipfsStore 7 (invalidResponse 7)] ∧
      (lookupBy 7 (handle_timeout_task sC2 0 7).req_id_to_data).isSome = true) :=
  ⟨⟨by with_unfolding_all decide, by with_unfolding_all decide,
      by with_unfolding_all decide⟩,
    c2_timeout_limit_finalizes sC2 0 7 etC2 (by with_unfolding_all decide)
      (by with_unfolding_all decide) (by with_unfolding_all decide)⟩

/-- C6: a payload that fails the validity test or names an unknown tool (or
arrives in clear-queue mode — all three make the submit guard false) marks
the registry entry invalid, leaves its future untouched (nothing is submitted
to the worker pool) and issues nothing; finalizing that invalid task stores
exactly the envelope `{"requestId": req, "result": "Invalid response"}`. -/
theorem c6_invalid_payload (s : SchedState) (now : Rat) (req : Nat)
    (et : TaskData) (p : Payload)
    (h1 : lookupBy req s.req_id_to_data = some et)
    (h2 : ¬ (is_data_valid s.params p = true ∧ tool_of_known s p = true)) :
    ((lookupBy req (handle_get_task s now req p).req_id_to_data).map
        fun td => td.is_invalid) = some true ∧
    ((lookupBy req (handle_get_task s now req p).req_id_to_data).bind
        fun td => td.async_result) = et.async_result ∧
    (handle_get_task s now req p).issued = s.issued ∧
    get_executing_task_result (handle_get_task s now req p) req = none ∧
    (handle_done_task (handle_get_task s now req p) now req none).issued =
      s.issued ++ [.ipfsStore req (invalidResponse req)] := by
  simp only [handle_get_task, h1]
  rw [if_neg h2]
  by_cases hv : is_data_valid s.params p = true
  · rw [if_pos hv]
    simp [lookupBy_dictModify_self, h1, get_executing_task_result,
      handle_done_task, send_message]
  · rw [if_neg hv]
    simp [lookupBy_dictModify_self, h1, get_executing_task_result,
      handle_done_task, send_message]

/-- C6 (witness): request 7 receives a payload with a `prompt` but no `tool`
key. -/
theorem c6_invalid_payload_witness :
    (lookupBy 7 sC6.req_id_to_data = some etC6 ∧
      ¬ (is_data_valid sC6.params payloadNoTool = true ∧
          tool_of_known sC6 payloadNoTool = true)) ∧
    (((lookupBy 7 (handle_get_task sC6 0 7 payloadNoTool).req_id_to_data).map
        fun td => td.is_invalid) = some true ∧
      ((lookupBy 7 (handle_get_task sC6 0 7 payloadNoTool).req_id_to_data).bind
        fun td => td.async_result) = etC6.async_result ∧
      (handle_get_task sC6 0 7 payloadNoTool).issued = sC6.issued ∧
      get_executing_task_result (handle_get_task sC6 0 7 payloadNoTool) 7 = none ∧
      (handle_done_task (handle_get_task sC6 0 7 payloadNoTool) 0 7 none).issued =
        sC6.issued ++ [.ipfsStore 7 (invalidResponse 7)]) :=
  ⟨⟨by with_unfolding_all decide, by with_unfolding_all decide⟩,
    c6_invalid_payload sC6 0 7 etC6 payloadNoTool (by with_unfolding_all decide)
      (by with_unfolding_all decide)⟩

/-- C10: when dequeueing a pending task whose raw `data` cannot be parsed
into an IPFS hash, `_execute_task` neither raises nor marks the task invalid:
the registry entry equals the queued task with only its round-robin
`executor_idx` filled in (`is_invalid` untouched), and the payload fetch is
issued with the hard-coded fallback hash. -/
theorem c10_fallback_hash (parse : String → Option String) (s : SchedState)
    (now : Rat) (td : TaskData) (rest : List TaskData)
    (h1 : s.in_flight_req = false)
    (h2 : s.req_id_to_data = [])
    (h3 : s.pending_tasks = td :: rest)
    (h4 : 0 < s.executors)
    (h5 : parse td.data = none) :
    (execute_task parse s now).issued =
      s.issued ++ [.ipfsGet fallback_ipfs_hash .getTask td.requestId] ∧
    lookupBy td.requestId (execute_task parse s now).req_id_to_data =
      some { td with executor_idx := s.task_index % s.executors } ∧
    ((lookupBy td.requestId (execute_task parse s now).req_id_to_data).map
        fun t => t.is_invalid) = some td.is_invalid := by
  have hfin : execute_phase_finalize s now = s := by
    simp [execute_phase_finalize, execute_phase_stale, execute_phase_advance,
      h2, markStaleFinalization, findAdvanceIn]
  have hskip : ¬ (s.in_flight_req = true ∧ now < s.in_flight_req_timeout) := by
    simp [h1]
  unfold execute_task
  rw [if_neg hskip, hfin]
  unfold execute_phase_dequeue
  rw [if_neg (by simp [h3]), if_neg (by simp [h2]; omega)]
  simp only [h3, h5, h2]
  simp [send_message, dictSet, lookupBy]

/-- C10 (witness): request 4 with unparsable data `"not-a-hash"`. -/
theorem c10_fallback_hash_witness :
    (sC10.in_flight_req = false ∧ sC10.req_id_to_data = [] ∧
      sC10.pending_tasks = tdD :: [] ∧ 0 < sC10.executors ∧
      noParse tdD.data = none) ∧
    ((execute_task noParse sC10 0).issued =
        sC10.issued ++ [.ipfsGet fallback_ipfs_hash .getTask tdD.requestId] ∧
      lookupBy tdD.requestId (execute_task noParse sC10 0).req_id_to_data =
        some { tdD with executor_idx := sC10.task_index % sC10.executors } ∧
      ((lookupBy tdD.requestId (execute_task noParse sC10 0).req_id_to_data).map
          fun t => t.is_invalid) = some tdD.is_invalid) :=
  ⟨⟨by with_unfolding_all decide, by with_unfolding_all decide,
      by with_unfolding_all decide, by with_unfolding_all decide,
      by with_unfolding_all decide⟩,
    c10_fallback_hash noParse sC10 0 tdD [] (by with_unfolding_all decide)
      (by with_unfolding_all decide) (by with_unfolding_all decide)
      (by with_unfolding_all decide) (by with_unfolding_all decide)⟩

/-- Reading the big-endian bytes of `n` back yields `n` modulo the width:
`beBytes` is the big-endian base-256 encoding. -/
theorem natOfBeBytes_beBytes : ∀ (w n : Nat), natOfBeBytes (beBytes w n) = n % 256 ^ w
  | 0, n => by simp [beBytes, natOfBeBytes, Nat.mod_one]
  | w + 1, n => by
    have ih := natOfBeBytes_beBytes w (n / 256)
    have hsplit : n % (256 * 256 ^ w) = n % 256 + 256 * (n / 256 % 256 ^ w) :=
      Nat.mod_mul
    calc natOfBeBytes (beBytes (w + 1) n)
        = natOfBeBytes (beBytes w (n / 256)) * 256 + n % 256 := by
          simp [beBytes, natOfBeBytes, List.foldl_append]
      _ = (n / 256 % 256 ^ w) * 256 + n % 256 := by rw [ih]
      _ = n % 256 ^ (w + 1) := by rw [pow_succ, mul_comm (256 ^ w) 256, hsplit]; omega

/-- C9: on the store response for a finalized task, the published
`task_result` is the hex of the ABI encoding
`(cost : uint256, resultBytes : bytes)` — head: 32-byte big-endian cost and
the offset 0x40; tail: 32-byte big-endian length and the zero-padded
multihash bytes — when the owning mech enables dynamic pricing, and the raw
multihash hex otherwise; `beBytes` is genuinely big-endian
(`natOfBeBytes` inverts it). -/
theorem c9_dynamic_pricing (to_v1 : String → String)
    (multihash_bytes : String → List Nat) (cost_of : DoneTask → Nat)
    (s : SchedState) (now : Rat) (req : Nat) (et : TaskData) (dt : DoneTask)
    (addr : String) (flag : Bool) (h : String)
    (h1 : lookupBy req s.req_id_to_data = some et)
    (h2 : et.requestId = req)
    (h3 : et.done_task = some dt)
    (h4 : dt.mech_address = some addr)
    (h5 : lookupBy addr s.params.mech_to_config = some flag) :
    (handle_store_response to_v1 multihash_bytes cost_of s now req h).done_tasks =
      s.done_tasks ++
        [{ dt with task_result := some (if flag then hexOfBytes (abi_encode_uint256_bytes (cost_of dt) (multihash_bytes (to_v1 h))) else hexOfBytes (multihash_bytes (to_v1 h))) }] ∧
    natOfBeBytes (beBytes 32 (cost_of dt)) = cost_of dt % 256 ^ 32 ∧
    abi_encode_uint256_bytes (cost_of dt) (multihash_bytes (to_v1 h)) =
      beBytes 32 (cost_of dt) ++ beBytes 32 64 ++
        beBytes 32 (multihash_bytes (to_v1 h)).length ++
        padTo32 (multihash_bytes (to_v1 h)) := by
  refine ⟨?_, natOfBeBytes_beBytes 32 _, rfl⟩
  cases flag <;>
    simp [handle_store_response, h1, h2, h3, h4, h5]

/-- C9 (witness): request 7 owned by mech `"mdyn"` with dynamic pricing on,
cost 5, multihash bytes `[1, 2]`. -/
theorem c9_dynamic_pricing_witness :
    (lookupBy 7 sC9.req_id_to_data = some etC9 ∧ etC9.requestId = 7 ∧
      etC9.done_task = some dtC9 ∧ dtC9.mech_address = some "mdyn" ∧
      lookupBy "mdyn" sC9.params.mech_to_config = some true) ∧
    ((handle_store_response (fun x => x) (fun _ => [1, 2]) (fun _ => 5) sC9 0 7 "Qm").done_tasks =
        sC9.done_tasks ++
          [{ dtC9 with task_result := some (if true then hexOfBytes (abi_encode_uint256_bytes 5 [1, 2]) else hexOfBytes [1, 2]) }] ∧
      natOfBeBytes (beBytes 32 5) = 5 % 256 ^ 32 ∧
      abi_encode_uint256_bytes 5 [1, 2] =
        beBytes 32 5 ++ beBytes 32 64 ++ beBytes 32 ([1, 2] : List Nat).length ++
          padTo32 [1, 2]) :=
  ⟨⟨by with_unfolding_all decide, by with_unfolding_all decide,
      by with_unfolding_all decide, by with_unfolding_all decide,
      by with_unfolding_all decide⟩,
    c9_dynamic_pricing (fun x => x) (fun _ => [1, 2]) (fun _ => 5) sC9 0 7 etC9
      dtC9 "mdyn" true "Qm" (by with_unfolding_all decide)
      (by with_unfolding_all decide) (by with_unfolding_all decide)
      (by with_unfolding_all decide) (by with_unfolding_all decide)⟩

/-- `quietStep` is reflexive. -/
theorem quietStep_refl (s : SchedState) : quietStep s s := ⟨rfl, rfl, rfl⟩

/-- A calm state's fresh in-flight window has not expired at `now`. -/
theorem calmAt_lt {s : SchedState} {now : Rat} (h : calmAt s now) :
    now < s.in_flight_req_timeout := by
  rw [h.2]
  linarith

/-- `_handle_done_task` either issues nothing (missing registry entry) or
exactly one store call with a fresh 30-second in-flight window. -/
theorem handle_done_task_issues (s0 s : SchedState) (now : Rat) (r : Nat)
    (t : Option TaskResultVal) (hq : quietStep s0 s) :
    quietStep s0 (handle_done_task s now r t) ∨
      ((handle_done_task s now r t).issued.length = s0.issued.length + 1 ∧
        calmAt (handle_done_task s now r t) now) := by
  rcases hl : lookupBy r s.req_id_to_data with _ | et
  · left
    simpa [handle_done_task, hl] using hq
  · rcases t with _ | tr
    · right
      simp [handle_done_task, hl, send_message, calmAt, hq.1]
    · rcases tr with ⟨m, p, tx, c, k⟩ | m <;> right <;>
        simp [handle_done_task, hl, send_message, calmAt, hq.1]

/-- `_handle_timeout_task` either issues nothing (requeue path) or exactly
one store call via `_handle_done_task`. -/
theorem handle_timeout_task_issues (s0 s : SchedState) (now : Rat) (r : Nat)
    (hq : quietStep s0 s) :
    quietStep s0 (handle_timeout_task s now r) ∨
      ((handle_timeout_task s now r).issued.length = s0.issued.length + 1 ∧
        calmAt (handle_timeout_task s now r) now) := by
  rcases hl : lookupBy r s.req_id_to_data with _ | et
  · left
    simpa [handle_timeout_task, hl] using hq
  · simp only [handle_timeout_task, hl, restart_executor, ite_true]
    split
    · left
      exact ⟨hq.1, hq.2.1, hq.2.2⟩
    · exact handle_done_task_issues s0 _ now _ _ ⟨hq.1, hq.2.1, hq.2.2⟩

/-- The stale-finalization pass only touches the registry. -/
theorem execute_phase_stale_quiet (s : SchedState) (now : Rat) :
    quietStep s (execute_phase_stale s now).1 := by
  unfold execute_phase_stale
  rcases h : markStaleFinalization now s.req_id_to_data with _ | reg <;>
    simp [h, quietStep]

/-- The advance pass issues at most one store call. -/
theorem execute_phase_advance_issues (s0 s : SchedState) (now : Rat)
    (hq : quietStep s0 s) :
    quietStep s0 (execute_phase_advance s now) ∨
      ((execute_phase_advance s now).issued.length = s0.issued.length + 1 ∧
        calmAt (execute_phase_advance s now) now) := by
  unfold execute_phase_advance
  rcases h : findAdvanceIn s now s.req_id_to_data with _ | ⟨b, k⟩
  · left; exact hq
  · cases b
    · rcases handle_timeout_task_issues s0 s now k hq with hx | hx
      · left; exact ⟨hx.1, hx.2.1, hx.2.2⟩
      · right; exact ⟨hx.1, hx.2.1, hx.2.2⟩
    · exact handle_done_task_issues s0 _ now k _ ⟨hq.1, hq.2.1, hq.2.2⟩

/-- The dequeue pass issues at most one payload fetch. -/
theorem execute_phase_dequeue_issues (parse : String → Option String)
    (s0 s : SchedState) (now : Rat) (hq : quietStep s0 s) :
    quietStep s0 (execute_phase_dequeue parse s now) ∨
      ((execute_phase_dequeue parse s now).issued.length = s0.issued.length + 1 ∧
        calmAt (execute_phase_dequeue parse s now) now) := by
  unfold execute_phase_dequeue
  split
  · left; exact hq
  · split
    · left; exact hq
    · rcases h : s.pending_tasks with _ | ⟨td, rest⟩
      · left; exact ⟨hq.1, hq.2.1, hq.2.2⟩
      · right
        simp [h, send_message, calmAt, hq.1]

/-- `_execute_task` issues at most two calls per invocation — a finalization
store call and a payload fetch — and if it issued anything the in-flight flag
is set with a fresh 30-second window. -/
theorem execute_task_issues (parse : String → Option String) (s : SchedState)
    (now : Rat) :
    quietStep s (execute_task parse s now) ∨
      ((execute_task parse s now).issued.length ≤ s.issued.length + 2 ∧
        calmAt (execute_task parse s now) now) := by
  unfold execute_task
  split
  · left; exact quietStep_refl s
  · unfold execute_phase_finalize
    dsimp only
    split
    · rcases execute_phase_dequeue_issues parse s _ now
          (execute_phase_stale_quiet s now) with hd | hd
      · left; exact hd
      · right; exact ⟨by omega, hd.2⟩
    · rcases execute_phase_advance_issues s _ now
          (execute_phase_stale_quiet s now) with ha | ha
      · rcases execute_phase_dequeue_issues parse s _ now ha with hd | hd
        · left; exact hd
        · right; exact ⟨by omega, hd.2⟩
      · rcases execute_phase_dequeue_issues parse
            (execute_phase_advance (execute_phase_stale s now).1 now) _ now
            (quietStep_refl _) with hd | hd
        · right
          refine ⟨?_, ⟨hd.2.1.trans ha.2.1, hd.2.2.trans ha.2.2⟩⟩
          rw [hd.1, ha.1]
          omega
        · right
          refine ⟨?_, hd.2⟩
          have := hd.1
          rw [ha.1] at this
          omega

/-- `_download_tools` issues at most one tool fetch. -/
theorem download_tools_issues (s : SchedState) (now : Rat) :
    download_tools s now = s ∨
      ((download_tools s now).issued.length = s.issued.length + 1 ∧
        calmAt (download_tools s now) now) := by
  unfold download_tools
  split
  · left; rfl
  · split
    · left; rfl
    · rcases h : firstMissingTool s.all_tools s.tools_to_file_hash with _ | ⟨t, fh⟩
      · left; simp [h]
      · right; simp [h, send_message, calmAt]

/-- `_check_for_new_reqs` issues at most one ledger query. -/
theorem check_for_new_reqs_issues (s : SchedState) (now : Rat) :
    (check_for_new_reqs s now).issued.length ≤ s.issued.length + 1 := by
  unfold check_for_new_reqs
  split
  · simp
  · rcases h : s.from_block with _ | fb <;> simp [h, populate_from_block]

/-- An unexpired in-flight request blocks `_execute_task` entirely. -/
theorem execute_task_skip (parse : String → Option String) (s : SchedState)
    (now : Rat) (h1 : s.in_flight_req = true)
    (h2 : now < s.in_flight_req_timeout) :
    execute_task parse s now = s := by
  unfold execute_task
  rw [if_pos ⟨h1, h2⟩]

/-- An unexpired in-flight request blocks `_check_for_new_reqs` entirely. -/
theorem check_for_new_reqs_skip (s : SchedState) (now : Rat)
    (h1 : s.in_flight_req = true) (h2 : now < s.in_flight_req_timeout) :
    check_for_new_reqs s now = s := by
  unfold check_for_new_reqs
  rw [if_pos (Or.inl ⟨h1, h2⟩)]

/-- C1 (amended): a single scheduler tick issues at most two ledger or
content-store calls, not at most one — a finalization store call possibly
followed in the same tick by the payload fetch of a freshly dequeued task
(each phase of the tick issues at most one call, and issuing any call sets
the in-flight flag with a fresh 30-second window, blocking the remaining
phases). -/
theorem c1_per_tick_bound (parse : String → Option String) (s : SchedState)
    (now : Rat) :
    (act parse s now).issued.length ≤ s.issued.length + 2 := by
  unfold act
  rcases download_tools_issues s now with hdl | hdl
  · rw [hdl]
    rcases execute_task_issues parse s now with hex | hex
    · calc (check_for_new_reqs (execute_task parse s now) now).issued.length
          ≤ (execute_task parse s now).issued.length + 1 :=
            check_for_new_reqs_issues _ now
        _ = s.issued.length + 1 := by rw [hex.1]
        _ ≤ s.issued.length + 2 := by omega
    · rw [check_for_new_reqs_skip _ now hex.2.1 (calmAt_lt hex.2)]
      exact hex.1
  · rw [execute_task_skip parse _ now hdl.2.1 (calmAt_lt hdl.2),
      check_for_new_reqs_skip _ now hdl.2.1 (calmAt_lt hdl.2)]
    omega

/-- C3 (amended): with `max_queue_size = 5` and base deadline 100s, a queue
of 20 yields a 400-second deadline (the divisor `min(5/20, 5) = 1/4` dilates
rather than compresses), a queue of 3 yields the uncompressed 100 seconds,
and in general the computed deadline never falls below the base deadline —
so in particular it is never compressed, let alone by more than 5×. -/
theorem c3_amended :
    task_deadline pC3 20 0 = 400 ∧ task_deadline pC3 3 0 = 100 ∧
      ∀ (queue_size : Nat) (now : Rat),
        now + pC3.task_deadline ≤ task_deadline pC3 queue_size now := by
  refine ⟨by with_unfolding_all decide, by with_unfolding_all decide, ?_⟩
  intro qs now
  unfold task_deadline
  split
  · rename_i hqs
    have h5 : (5 : Nat) < qs := hqs
    have hq0 : (0 : Rat) < (qs : Rat) := by
      exact_mod_cast (by omega : 0 < qs)
    have hnum : ((pC3.max_queue_size : Nat) : Rat) = 5 := by norm_num [pC3]
    have hle : ((pC3.max_queue_size : Nat) : Rat) / (qs : Rat) ≤ 1 := by
      rw [div_le_one hq0, hnum]
      exact_mod_cast Nat.le_of_lt h5
    have hpos : 0 < min (((pC3.max_queue_size : Nat) : Rat) / (qs : Rat)) 5 := by
      refine lt_min (div_pos ?_ hq0) (by norm_num)
      rw [hnum]; norm_num
    have hmin1 : min (((pC3.max_queue_size : Nat) : Rat) / (qs : Rat)) 5 ≤ 1 :=
      le_trans (min_le_left _ _) hle
    have hbase : pC3.task_deadline ≤
        pC3.task_deadline / min (((pC3.max_queue_size : Nat) : Rat) / (qs : Rat)) 5 := by
      rw [le_div_iff₀ hpos]
      calc pC3.task_deadline * min (((pC3.max_queue_size : Nat) : Rat) / (qs : Rat)) 5
          ≤ pC3.task_deadline * 1 := by
            apply mul_le_mul_of_nonneg_left hmin1
            norm_num [pC3]
        _ = pC3.task_deadline := mul_one _
    linarith
  · linarith

end MechScheduler
